import Mathlib

/-!
Verification of the live-reload notification subsystem of grup
(src/grup.rs): a filesystem watcher thread that sets a shared atomic
boolean when the tracked markdown file changes, and a long-poll HTTP
handler (path /update) that repeatedly tests-and-clears that boolean.

The Rust source is shallowly embedded below: paths become a structured
type (absolute flag plus components, mirroring std::path::Path on Unix),
the shared AtomicBool becomes explicit Bool state, panics (unwrap /
expect) become Except errors, and the startup sequence of main becomes a
function from an environment of outcome flags to a final outcome.
-/

namespace Grup

/-- A filesystem path, as std::path::Path models it on Unix: an optional
root plus a list of normal components.  Components are nonempty names
without a separator.  `toStr` reproduces to_str on such a path. -/
structure MdPath where
  absolute : Bool
  components : List String
deriving DecidableEq, Repr

/-- Path::parent — drops the final component; none when the path is
empty or is a bare root (no component to drop). -/
def MdPath.parent (p : MdPath) : Option MdPath :=
  match p.components with
  | [] => none
  | _ => some ⟨p.absolute, p.components.dropLast⟩

/-- Path::to_str rendering of the structured path. -/
def MdPath.toStr (p : MdPath) : String :=
  (if p.absolute then "/" else "") ++ String.intercalate "/" p.components

/-- Path::file_name — the final component, the base name of the path. -/
def MdPath.baseName (p : MdPath) : Option String :=
  p.components.getLast?

/-- grup.rs lines 65-73: the directory registered with inotify.  The
parent of the file is used, except that a missing parent or a parent
rendering as the empty string is replaced by ".". -/
def resolvedWatchDir (file : MdPath) : String :=
  match file.parent with
  | some par => if par.toStr != "" then par.toStr else "."
  | none => "."

/-- Outcomes of the fallible calls main makes before the server runs,
supplied as an environment to the embedded startup sequence. -/
structure Env where
  fileExists : Bool
  isFile : Bool
  inotifyInitOk : Bool
  addWatchOk : Bool
deriving DecidableEq, Repr

/-- How the embedded main ends: an explicit process::exit, a panic from
an expect call, or reaching the serving stage with a watched directory. -/
inductive MainOutcome
  | exitCode : Int → MainOutcome
  | panicked : String → MainOutcome
  | serving : String → MainOutcome
deriving DecidableEq, Repr

/-- grup.rs lines 54-77: the startup sequence of main, in source order —
exists check, is_file check, Inotify::init().expect, parent resolution,
add_watch(..).expect — reaching the serving stage only past them all. -/
def mainFlow (env : Env) (file : MdPath) : MainOutcome :=
  if !env.fileExists then MainOutcome.exitCode (-1)
  else if !env.isFile then MainOutcome.exitCode (-1)
  else if !env.inotifyInitOk then MainOutcome.panicked "inotify init failed"
  else if !env.addWatchOk then MainOutcome.panicked "failed to watch"
  else MainOutcome.serving (resolvedWatchDir file)

/-- An inotify event as the watcher loop sees it: mask bits for CREATE
and MODIFY, and an optional subject name (None for events that carry no
name, such as queue overflow or events about the watched directory). -/
structure FsEvent where
  isCreate : Bool
  isModify : Bool
  name : Option String
deriving DecidableEq, Repr

/-- Option::unwrap on the event name: a panic, as an Except error, when
the name is absent. -/
def unwrapName (ev : FsEvent) : Except String String :=
  match ev.name with
  | none => Except.error "called unwrap on a None value"
  | some n => Except.ok n

/-- grup.rs lines 88-97: the per-event body of the watcher loop.  The
logging branch unwraps the name for CREATE, else for MODIFY; the
comparison then unwraps unconditionally and stores true into the shared
flag exactly when the name equals file.to_str() — the full path string
of the tracked file. -/
def processEvent (file : MdPath) (flag : Bool) (ev : FsEvent) : Except String Bool := do
  if ev.isCreate then
    let _ ← unwrapName ev
    pure ()
  else if ev.isModify then
    let _ ← unwrapName ev
    pure ()
  let n ← unwrapName ev
  pure (if n == file.toStr then true else flag)

/-- The watcher thread over a stream of events: a panic (error) kills
the thread, so the flag keeps its current value for every later event. -/
def watcherThread (file : MdPath) : List FsEvent → Bool → Bool
  | [], flag => flag
  | ev :: rest, flag =>
    match processEvent file flag ev with
    | Except.error _ => flag
    | Except.ok flag2 => watcherThread file rest flag2

/-- grup.rs line 79: the shared flag starts false. -/
def modifiedInit : Bool := false

/-- grup.rs line 109: compare_and_swap(true, false) — returns the prior
value and leaves the flag false. -/
def testAndClear (flag : Bool) : Bool × Bool := (flag, false)

/-- grup.rs lines 107-116, with the flag values the 60 iterations would
observe abstracted into a sequence: test at index i, return "yes" at the
first true, otherwise sleep 1000 ms and move on; "no" when the fuel runs
out.  The second result is the total milliseconds slept. -/
def updateGo (flag : Nat → Bool) : Nat → Nat → Nat → String × Nat
  | 0, _, slept => ("no", slept)
  | fuel + 1, i, slept =>
    if flag i then ("yes", slept) else updateGo flag fuel (i + 1) (slept + 1000)

/-- The /update handler: 60 iterations starting at index 0 with nothing
slept yet (interval = 60 in the source). -/
def updateHandler (flag : Nat → Bool) : String × Nat :=
  updateGo flag 60 0 0

/-- The /update loop run against the concrete shared flag, in a window
with no store from the watcher: each iteration is a test-and-clear on
the actual Bool state, and the final state is returned with the body. -/
def pollNoStore : Nat → Bool → String × Bool
  | 0, s => ("no", s)
  | fuel + 1, s =>
    let r := testAndClear s
    if r.1 then ("yes", r.2) else pollNoStore fuel r.2

/-- One full reload-check call (interval = 60) on the shared flag, with
no intervening store: body produced and flag state left behind. -/
def checkForChange (s : Bool) : String × Bool :=
  pollNoStore 60 s

/-- Atomic actions on the shared flag in a two-poller interleaving: a
store of true by the watcher, or one test-and-clear loop iteration by
poller A or poller B. -/
inductive Act
  | store
  | tacA
  | tacB
deriving DecidableEq, Repr

/-- Joint state of the flag and the two pollers.  res is none while a
poller is still looping, some body once it has returned; rem counts its
remaining loop iterations. -/
structure Sys where
  flag : Bool
  resA : Option String
  remA : Nat
  resB : Option String
  remB : Nat
deriving DecidableEq, Repr

/-- Both pollers at the top of their 60-iteration loop, flag false. -/
def initSys : Sys :=
  ⟨false, none, 60, none, 60⟩

/-- One loop iteration of a poller: nothing once it has returned;
otherwise compare_and_swap(true, false), returning "yes" on a prior
true, returning "no" when this was the last iteration, else looping. -/
def tacStep (flag : Bool) (res : Option String) (rem : Nat) :
    Bool × Option String × Nat :=
  if res.isSome then (flag, res, rem)
  else if flag then (false, some "yes", rem - 1)
  else if rem - 1 = 0 then (false, some "no", 0)
  else (false, none, rem - 1)

/-- Interleaved execution: apply one atomic action to the joint state. -/
def sysStep (s : Sys) : Act → Sys
  | Act.store => { s with flag := true }
  | Act.tacA =>
    let r := tacStep s.flag s.resA s.remA
    { s with flag := r.1, resA := r.2.1, remA := r.2.2 }
  | Act.tacB =>
    let r := tacStep s.flag s.resB s.remB
    { s with flag := r.1, resB := r.2.1, remB := r.2.2 }

/-- Run a whole schedule of atomic actions from the initial state. -/
def sysRun (acts : List Act) : Sys :=
  acts.foldl sysStep initSys

/-- Positive observations present in a state: pollers that returned
"yes", plus a pending true still sitting in the flag. -/
def yesCount (s : Sys) : Nat :=
  (if s.resA = some "yes" then 1 else 0)
    + (if s.resB = some "yes" then 1 else 0)
    + (if s.flag then 1 else 0)

/-- Number of watcher stores in a schedule. -/
def storeCount (acts : List Act) : Nat :=
  acts.countP fun a => a == Act.store

end Grup

namespace Grup

/-! ### Helper lemmas -/

/-- processEvent in closed form: a missing name is a panic on every
path, a present name stores true exactly on equality with the full path
string of the tracked file. -/
theorem processEvent_eq (file : MdPath) (flag : Bool) (ev : FsEvent) :
    processEvent file flag ev =
      match ev.name with
      | none => Except.error "called unwrap on a None value"
      | some n => Except.ok (if n == file.toStr then true else flag) := by
  rcases ev with ⟨c, m, name⟩
  cases name <;> cases c <;> cases m <;> rfl

/-- The /update loop only ever answers "yes" or "no". -/
theorem updateGo_yes_or_no (flag : Nat → Bool) :
    ∀ fuel i slept, (updateGo flag fuel i slept).1 = "yes"
      ∨ (updateGo flag fuel i slept).1 = "no" := by
  intro fuel
  induction fuel with
  | zero => intro i slept; right; rfl
  | succ n ih =>
    intro i slept
    by_cases h : flag i
    · left; simp [updateGo, h]
    · simpa [updateGo, h] using ih (i + 1) (slept + 1000)

end Grup

namespace Grup

/-! ### Claim theorems -/

/-- C3: two sequential reload-check calls on the shared flag, with no
store of true between the start of the first and the end of the second,
never both answer "yes" — the first test-and-clear that observes true
leaves the flag false, and it stays false for the whole second call. -/
theorem c3_sequential_calls_at_most_one_yes (s0 : Bool) :
    ¬((checkForChange s0).1 = "yes"
      ∧ (checkForChange (checkForChange s0).2).1 = "yes") := by
  cases s0 <;> decide

/-- C5: the /update handler has no error path — whatever flag values its
60 iterations observe, it terminates with body "yes" or body "no". -/
theorem c5_update_always_yes_or_no (flag : Nat → Bool) :
    (updateHandler flag).1 = "yes" ∨ (updateHandler flag).1 = "no" :=
  updateGo_yes_or_no flag 60 0 0

/-- C7: the directory registered for watching is the path's parent,
except that a path with no parent, or a parent rendering as the empty
string, is watched via the current working directory ".". -/
theorem c7_watch_dir_is_parent_or_dot (file : MdPath) :
    (file.parent = none → resolvedWatchDir file = ".")
    ∧ (∀ par, file.parent = some par → par.toStr = "" →
        resolvedWatchDir file = ".")
    ∧ (∀ par, file.parent = some par → par.toStr ≠ "" →
        resolvedWatchDir file = par.toStr) := by
  refine ⟨fun h => ?_, fun par h h2 => ?_, fun par h h2 => ?_⟩
  · simp [resolvedWatchDir, h]
  · simp [resolvedWatchDir, h, h2]
  · simp [resolvedWatchDir, h, h2]

/-- Witness for C7 at the path docs/README.md: its parent renders as
"docs", which is nonempty, so "docs" is the watched directory. -/
theorem c7_watch_dir_witness :
    resolvedWatchDir ⟨false, ["docs", "README.md"]⟩ = "docs" :=
  (c7_watch_dir_is_parent_or_dot ⟨false, ["docs", "README.md"]⟩).2.2
    ⟨false, ["docs"]⟩ rfl (by decide)

/-- C10: a markdown path that does not exist, or is not a regular file,
makes main exit with status -1 before the watch or the server exists;
in particular the serving stage is never reached. -/
theorem c10_bad_file_exits_before_serving (env : Env) (file : MdPath)
    (h : env.fileExists = false ∨ env.isFile = false) :
    mainFlow env file = MainOutcome.exitCode (-1)
    ∧ ∀ d, mainFlow env file ≠ MainOutcome.serving d := by
  obtain ⟨fe, fi, ii, aw⟩ := env
  rcases h with h | h
  · subst h; simp [mainFlow]
  · subst h; cases fe <;> simp [mainFlow]

/-- Witness for C10: a nonexistent file exits with -1 whatever the other
startup outcomes are. -/
theorem c10_bad_file_witness :
    mainFlow ⟨false, true, true, true⟩ ⟨false, ["a.md"]⟩
      = MainOutcome.exitCode (-1) :=
  (c10_bad_file_exits_before_serving ⟨false, true, true, true⟩
    ⟨false, ["a.md"]⟩ (Or.inl rfl)).1

/-- C6: if Inotify::init or add_watch fails, main never reaches the
serving stage — the expect calls panic first, and there is no path that
serves without a registered watch. -/
theorem c6_watch_failure_never_serves (env : Env) (file : MdPath)
    (h : env.inotifyInitOk = false ∨ env.addWatchOk = false) :
    ∀ d, mainFlow env file ≠ MainOutcome.serving d := by
  obtain ⟨fe, fi, ii, aw⟩ := env
  rcases h with h | h
  · subst h; cases fe <;> cases fi <;> simp [mainFlow]
  · subst h; cases fe <;> cases fi <;> cases ii <;> simp [mainFlow]

/-- Witness for C6: with the file checks passing but add_watch failing,
the process does not serve any directory. -/
theorem c6_watch_failure_witness :
    mainFlow ⟨true, true, true, false⟩ ⟨false, ["a.md"]⟩
      ≠ MainOutcome.serving "." :=
  c6_watch_failure_never_serves ⟨true, true, true, false⟩
    ⟨false, ["a.md"]⟩ (Or.inr rfl) "."

end Grup

namespace Grup

/-- C4: the shared flag starts false; the watcher's event processing
either leaves the flag alone or sets it to true, never clears it; and
the poller's sole access returns the prior value while leaving the flag
false — an atomic test-and-clear, not a plain read. -/
theorem c4_flag_access_discipline :
    modifiedInit = false
    ∧ (∀ file flag ev b, processEvent file flag ev = Except.ok b →
        b = flag ∨ b = true)
    ∧ (∀ flag, testAndClear flag = (flag, false)) := by
  refine ⟨rfl, ?_, fun flag => rfl⟩
  intro file flag ev b h
  rw [processEvent_eq] at h
  rcases ev with ⟨c, m, name⟩
  cases name with
  | none => simp at h
  | some n =>
    simp at h
    subst h
    cases hd : decide (n = file.toStr) <;> simp [hd]

/-- Witness for C4: a MODIFY event whose name equals the tracked path
string yields the flag value true, and test-and-clear on true returns
true while leaving false. -/
theorem c4_flag_access_witness :
    (true = false ∨ true = true) ∧ testAndClear true = (true, false) :=
  ⟨c4_flag_access_discipline.2.1 ⟨false, ["a.md"]⟩ false
      ⟨false, true, some "a.md"⟩ true rfl,
    c4_flag_access_discipline.2.2 true⟩

/-- If every flag value in the window is false, the /update loop runs
its whole fuel, sleeping 1000 ms per iteration, and answers "no". -/
theorem updateGo_all_false (flag : Nat → Bool) :
    ∀ fuel i slept, (∀ j, j < fuel → flag (i + j) = false) →
      updateGo flag fuel i slept = ("no", slept + 1000 * fuel) := by
  intro fuel
  induction fuel with
  | zero => intro i slept _; simp [updateGo]
  | succ n ih =>
    intro i slept h
    have h0 : flag i = false := by simpa using h 0 (Nat.succ_pos n)
    have hrec := ih (i + 1) (slept + 1000) (fun j hj => by
      have := h (j + 1) (Nat.succ_lt_succ hj)
      have he : i + (j + 1) = i + 1 + j := by omega
      rwa [he] at this)
    rw [updateGo, if_neg (by simp [h0]), hrec]
    have he : slept + 1000 + 1000 * n = slept + 1000 * (n + 1) := by ring
    rw [he]

/-- If the first true flag value in the window sits at offset k, the
/update loop answers "yes" after exactly k sleeps of 1000 ms. -/
theorem updateGo_first_true (flag : Nat → Bool) :
    ∀ fuel i slept k, k < fuel → flag (i + k) = true →
      (∀ j, j < k → flag (i + j) = false) →
      updateGo flag fuel i slept = ("yes", slept + 1000 * k) := by
  intro fuel
  induction fuel with
  | zero => intro i slept k hk _ _; exact absurd hk (Nat.not_lt_zero k)
  | succ n ih =>
    intro i slept k hk ht hf
    cases k with
    | zero =>
      have h0 : flag i = true := by simpa using ht
      rw [updateGo, if_pos h0]
      simp
    | succ m =>
      have h0 : flag i = false := by simpa using hf 0 (Nat.succ_pos m)
      have ht2 : flag (i + 1 + m) = true := by
        have he : i + 1 + m = i + (m + 1) := by omega
        rwa [he]
      have hf2 : ∀ j, j < m → flag (i + 1 + j) = false := fun j hj => by
        have := hf (j + 1) (Nat.succ_lt_succ hj)
        have he : i + (j + 1) = i + 1 + j := by omega
        rwa [he] at this
      have hrec := ih (i + 1) (slept + 1000) m (Nat.lt_of_succ_lt_succ hk) ht2 hf2
      rw [updateGo, if_neg (by simp [h0]), hrec]
      have he : slept + 1000 + 1000 * m = slept + 1000 * (m + 1) := by ring
      rw [he]

/-- C2: the /update handler polls at most 60 times over the flag values
it observes: with no true value in the window it answers "no" after 60
sleeps of 1000 ms (60000 ms total); at the first true value, at offset
i, it answers "yes" immediately, having slept 1000 ms per earlier
iteration. -/
theorem c2_update_handler_bounded_poll (flag : Nat → Bool) :
    ((∀ i, i < 60 → flag i = false) → updateHandler flag = ("no", 60000))
    ∧ (∀ i, i < 60 → flag i = true → (∀ j, j < i → flag j = false) →
        updateHandler flag = ("yes", 1000 * i)) := by
  constructor
  · intro h
    have := updateGo_all_false flag 60 0 0 (fun j hj => by simpa using h j hj)
    simpa [updateHandler] using this
  · intro i hi ht hf
    have := updateGo_first_true flag 60 0 0 i hi (by simpa using ht)
      (fun j hj => by simpa using hf j hj)
    simpa [updateHandler] using this

/-- Witness for C2: a flag sequence first true at iteration 2 makes the
handler answer "yes" after two 1000 ms sleeps. -/
theorem c2_update_handler_witness :
    updateHandler (fun i => decide (i = 2)) = ("yes", 1000 * 2) :=
  (c2_update_handler_bounded_poll (fun i => decide (i = 2))).2 2 (by decide)
    (by decide) (by decide)

/-- C9: an event carrying no name makes the watcher's unconditional
unwrap panic, and the dead thread processes nothing afterwards: the flag
keeps its value for every later event, however relevant. -/
theorem c9_nameless_event_kills_watcher (file : MdPath) (flag : Bool)
    (ev : FsEvent) (rest : List FsEvent) (h : ev.name = none) :
    (∃ msg, processEvent file flag ev = Except.error msg)
    ∧ watcherThread file (ev :: rest) flag = flag := by
  have hp : processEvent file flag ev
      = Except.error "called unwrap on a None value" := by
    rw [processEvent_eq, h]
  exact ⟨⟨_, hp⟩, by simp [watcherThread, hp]⟩

/-- Witness for C9: after one nameless event, a later MODIFY event that
names the tracked file exactly still leaves the flag false. -/
theorem c9_nameless_event_witness :
    (∃ msg, processEvent ⟨false, ["a.md"]⟩ false ⟨false, false, none⟩
        = Except.error msg)
    ∧ watcherThread ⟨false, ["a.md"]⟩
        [⟨false, false, none⟩, ⟨false, true, some "a.md"⟩] false = false :=
  c9_nameless_event_kills_watcher ⟨false, ["a.md"]⟩ false
    ⟨false, false, none⟩ [⟨false, true, some "a.md"⟩] rfl

/-- C1: the watcher compares the event name against the FULL path string
of the tracked file, not against its base name.  For the tracked file
docs/README.md, a MODIFY event named README.md — exactly the base name —
leaves the shared flag false, because "README.md" differs from the full
path string "docs/README.md"; so the comparison is not the base-name
equality the claim states. -/
theorem c1_compares_full_path_not_base_name :
    MdPath.baseName ⟨false, ["docs", "README.md"]⟩ = some "README.md"
    ∧ MdPath.toStr ⟨false, ["docs", "README.md"]⟩ = "docs/README.md"
    ∧ processEvent ⟨false, ["docs", "README.md"]⟩ false
        ⟨false, true, some "README.md"⟩ = Except.ok false
    ∧ watcherThread ⟨false, ["docs", "README.md"]⟩
        [⟨false, true, some "README.md"⟩] false = false :=
  ⟨by decide, by decide, rfl, rfl⟩

end Grup

namespace Grup

/-- One atomic action adds at most one positive observation, and only
when it is a store: a test-and-clear moves a pending true into a "yes"
answer (or produces a "no"), never creating a positive out of nothing. -/
theorem yesCount_sysStep (s : Sys) (a : Act) :
    yesCount (sysStep s a) ≤ yesCount s + (if a = Act.store then 1 else 0) := by
  cases a with
  | store => simp only [sysStep, yesCount]; split_ifs <;> omega
  | tacA =>
    simp only [sysStep, yesCount, tacStep]
    split_ifs <;> simp_all
  | tacB =>
    simp only [sysStep, yesCount, tacStep]
    split_ifs <;> simp_all

/-- Along any schedule, positive observations never exceed the stores
performed so far plus those already present. -/
theorem yesCount_foldl_le (acts : List Act) :
    ∀ s, yesCount (acts.foldl sysStep s) ≤ yesCount s + storeCount acts := by
  induction acts with
  | nil => intro s; simp [storeCount]
  | cons a rest ih =>
    intro s
    have h1 := yesCount_sysStep s a
    have h2 := ih (sysStep s a)
    have h3 : storeCount (a :: rest)
        = storeCount rest + (if a = Act.store then 1 else 0) := by
      cases a <;> simp [storeCount, List.countP_cons]
    rw [List.foldl_cons]
    omega

/-- From the initial state, positive observations are bounded by the
number of stores in the schedule. -/
theorem yesCount_sysRun_le (acts : List Act) :
    yesCount (sysRun acts) ≤ storeCount acts := by
  have h := yesCount_foldl_le acts initSys
  simpa [sysRun, initSys, yesCount] using h

set_option maxRecDepth 4000 in
/-- C8: the flag is a single-slot mailbox.  In any interleaving of the
two pollers with at most one watcher store, they never both answer
"yes"; and the schedule store, one A iteration, then B's 60 iterations
has A answer "yes" while B exhausts its window and answers "no" even
though a change occurred. -/
theorem c8_single_slot_mailbox :
    (∀ acts : List Act, storeCount acts ≤ 1 →
      ¬((sysRun acts).resA = some "yes" ∧ (sysRun acts).resB = some "yes"))
    ∧ (sysRun (Act.store :: Act.tacA :: List.replicate 60 Act.tacB)).resA
        = some "yes"
    ∧ (sysRun (Act.store :: Act.tacA :: List.replicate 60 Act.tacB)).resB
        = some "no" := by
  refine ⟨?_, by decide, by decide⟩
  rintro acts hs ⟨ha, hb⟩
  have h1 := yesCount_sysRun_le acts
  have h2 : 2 ≤ yesCount (sysRun acts) := by
    rw [yesCount, ha, hb]; simp
  omega

/-- Witness for C8: the at-most-one-yes half on the concrete schedule
store, A iteration, B iteration. -/
theorem c8_single_slot_witness :
    ¬((sysRun [Act.store, Act.tacA, Act.tacB]).resA = some "yes"
      ∧ (sysRun [Act.store, Act.tacA, Act.tacB]).resB = some "yes") :=
  c8_single_slot_mailbox.1 [Act.store, Act.tacA, Act.tacB] (by decide)

end Grup
